import Mathlib

/-!
Verification of the splat rendering pipeline of `SplatMesh.js`
(GaussianSplats3D).  Every definition is a shallow embedding of the
corresponding JavaScript in `src/src/SplatMesh.js`; JavaScript numbers used
in exact comparisons and integer arithmetic are modelled by `ℚ`, `ℤ` and
`ℕ`; GPU shader real arithmetic is modelled by `ℝ`; typed arrays are
modelled by total functions from `ℕ` together with the length information
carried by the surrounding code.  External collaborators that are not part
of the provided sources (the point-cloud `SplatBuffer` fill functions and
the two helpers of `Util.js`) are modelled from the specification and are
marked as such in their doc comments.
-/

namespace GS3D

/-! ### Global Index Mapper, `SplatMesh.buildSplatIndexMaps` (lines 416-433)

The source iterates over the splat buffers in order; a buffer enters the
maps only through `splatBuffer.getMaxSplatCount()`, so a buffer list is
modelled by the list of those max splat counts.  The inner loop
`for (i in [0, maxSplatCount)) localSplatIndexMap[total] = i;
sceneIndexMap[total] = s; total++` appends `range maxSplatCount` to the
local map and `replicate maxSplatCount s` to the scene map. -/

def buildSplatIndexMapsGo : ℕ → List ℕ → List ℕ × List ℕ → List ℕ × List ℕ
  | _, [], maps => maps
  | s, maxSplatCount :: rest, (localSplatIndexMap, sceneIndexMap) =>
      buildSplatIndexMapsGo (s + 1) rest
        (localSplatIndexMap ++ List.range maxSplatCount,
         sceneIndexMap ++ List.replicate maxSplatCount s)

/-- Embedding of `SplatMesh.buildSplatIndexMaps` (source lines 416-433). -/
def buildSplatIndexMaps (maxCounts : List ℕ) : List ℕ × List ℕ :=
  buildSplatIndexMapsGo 0 maxCounts ([], [])

/-- Structural description of the local-index map produced by the loop. -/
def localMapOf : List ℕ → List ℕ
  | [] => []
  | m :: rest => List.range m ++ localMapOf rest

/-- Structural description of the scene-index map produced by the loop,
    starting at scene index `s`. -/
def sceneMapOf : ℕ → List ℕ → List ℕ
  | _, [] => []
  | s, m :: rest => List.replicate m s ++ sceneMapOf (s + 1) rest

lemma buildSplatIndexMapsGo_eq (bufs : List ℕ) : ∀ (s : ℕ) (l sc : List ℕ),
    buildSplatIndexMapsGo s bufs (l, sc) = (l ++ localMapOf bufs, sc ++ sceneMapOf s bufs) := by
  induction bufs with
  | nil => intro s l sc; simp [buildSplatIndexMapsGo, localMapOf, sceneMapOf]
  | cons m rest ih =>
      intro s l sc
      simp only [buildSplatIndexMapsGo, localMapOf, sceneMapOf, ih, List.append_assoc]

lemma buildSplatIndexMaps_eq (bufs : List ℕ) :
    buildSplatIndexMaps bufs = (localMapOf bufs, sceneMapOf 0 bufs) := by
  simpa using buildSplatIndexMapsGo_eq bufs 0 [] []

lemma length_localMapOf (bufs : List ℕ) : (localMapOf bufs).length = bufs.sum := by
  induction bufs with
  | nil => simp [localMapOf]
  | cons m rest ih => simp [localMapOf, ih]

lemma length_sceneMapOf (bufs : List ℕ) : ∀ s, (sceneMapOf s bufs).length = bufs.sum := by
  induction bufs with
  | nil => intro s; simp [sceneMapOf]
  | cons m rest ih => intro s; simp [sceneMapOf, ih]

lemma count_sceneMapOf_lt (bufs : List ℕ) : ∀ s t, t < s →
    (sceneMapOf s bufs).count t = 0 := by
  induction bufs with
  | nil => intro s t _; simp [sceneMapOf]
  | cons m rest ih =>
      intro s t ht
      simp only [sceneMapOf, List.count_append, List.count_replicate, beq_iff_eq]
      rw [ih (s + 1) t (by omega)]
      split <;> omega

lemma count_sceneMapOf (bufs : List ℕ) : ∀ s t, t < bufs.length →
    (sceneMapOf s bufs).count (s + t) = bufs.getD t 0 := by
  induction bufs with
  | nil => intro s t ht; simp at ht
  | cons m rest ih =>
      intro s t ht
      simp only [sceneMapOf, List.count_append, List.count_replicate]
      cases t with
      | zero =>
          rw [count_sceneMapOf_lt rest (s + 1) (s + 0) (by omega)]
          simp
      | succ t' =>
          have h1 : s + (t' + 1) = (s + 1) + t' := by omega
          rw [h1, ih (s + 1) t' (by simpa using ht)]
          simp only [List.getD_cons_succ, beq_iff_eq]
          split <;> omega

lemma getD_localMapOf (bufs : List ℕ) : ∀ t i, t < bufs.length → i < bufs.getD t 0 →
    (localMapOf bufs).getD ((bufs.take t).sum + i) 0 = i := by
  induction bufs with
  | nil => intro t i ht _; simp at ht
  | cons m rest ih =>
      intro t i ht hi
      cases t with
      | zero =>
          simp only [List.take_zero, List.sum_nil, Nat.zero_add, localMapOf]
          rw [List.getD_append _ _ _ _ (by simpa using hi)]
          simp only [List.getD, List.getElem?_range]
          simp at hi
          simp [hi]
      | succ t' =>
          simp only [List.take_succ_cons, List.sum_cons, localMapOf]
          have harr : m + ((rest.take t').sum + i) = (m + (rest.take t').sum) + i := by omega
          rw [harr.symm]
          rw [List.getD_append_right _ _ _ _ (by simp only [List.length_range]; omega)]
          simp only [List.length_range]
          have h3 : m + ((rest.take t').sum + i) - m = (rest.take t').sum + i := by omega
          rw [h3]
          exact ih t' i (by simpa using ht) (by simpa using hi)

lemma getD_sceneMapOf (bufs : List ℕ) : ∀ s t i, t < bufs.length → i < bufs.getD t 0 →
    (sceneMapOf s bufs).getD ((bufs.take t).sum + i) 0 = s + t := by
  induction bufs with
  | nil => intro s t i ht _; simp at ht
  | cons m rest ih =>
      intro s t i ht hi
      cases t with
      | zero =>
          simp only [List.take_zero, List.sum_nil, Nat.zero_add, sceneMapOf]
          rw [List.getD_append _ _ _ _ (by simpa using hi)]
          simp only [List.getD, List.getElem?_replicate]
          simp at hi
          simp [hi]
      | succ t' =>
          simp only [List.take_succ_cons, List.sum_cons, sceneMapOf]
          have harr : m + ((rest.take t').sum + i) = (m + (rest.take t').sum) + i := by omega
          rw [harr.symm]
          rw [List.getD_append_right _ _ _ _ (by simp only [List.length_replicate]; omega)]
          simp only [List.length_replicate]
          have h3 : m + ((rest.take t').sum + i) - m = (rest.take t').sum + i := by omega
          rw [h3]
          have := ih (s + 1) t' i (by simpa using ht) (by simpa using hi)
          omega

lemma zip_replicate_range (m s : ℕ) :
    (List.replicate m s).zip (List.range m) = (List.range m).map (fun i => (s, i)) := by
  induction m with
  | zero => simp
  | succ m ih =>
      rw [List.replicate_succ', List.range_succ,
          List.zip_append (by simp), ih, List.map_append]
      simp

/-- The global sequence of `(sceneIndex, localIndex)` pairs built by the loop,
    starting at scene index `s`. -/
def pairsFrom (s : ℕ) (bufs : List ℕ) : List (ℕ × ℕ) :=
  (sceneMapOf s bufs).zip (localMapOf bufs)

lemma pairsFrom_cons (s m : ℕ) (rest : List ℕ) :
    pairsFrom s (m :: rest) = (List.range m).map (fun i => (s, i)) ++ pairsFrom (s + 1) rest := by
  unfold pairsFrom
  simp only [sceneMapOf, localMapOf]
  rw [List.zip_append (by simp), zip_replicate_range]

lemma filter_pairsFrom_lt (bufs : List ℕ) : ∀ s t, t < s →
    (pairsFrom s bufs).filter (fun p => p.1 == t) = [] := by
  induction bufs with
  | nil => intro s t _; simp [pairsFrom, sceneMapOf, localMapOf]
  | cons m rest ih =>
      intro s t ht
      rw [pairsFrom_cons, List.filter_append, ih (s + 1) t (by omega)]
      have hblock : (List.range m).filter ((fun p => p.1 == t) ∘ (fun i => (s, i))) = [] := by
        have : ((fun (p : ℕ × ℕ) => p.1 == t) ∘ (fun i => (s, i))) = fun _ => (s == t) := rfl
        rw [this]
        have hne : (s == t) = false := by simp; omega
        simp [hne]
      rw [List.filter_map, hblock]
      simp

lemma filter_map_snd_pairsFrom (bufs : List ℕ) : ∀ s t, t < bufs.length →
    ((pairsFrom s bufs).filter (fun p => p.1 == s + t)).map Prod.snd
      = List.range (bufs.getD t 0) := by
  induction bufs with
  | nil => intro s t ht; simp at ht
  | cons m rest ih =>
      intro s t ht
      rw [pairsFrom_cons, List.filter_append, List.filter_map, List.map_append]
      have hcomp : ((fun (p : ℕ × ℕ) => p.1 == s + t) ∘ (fun i => (s, i)))
          = fun _ => (s == s + t) := rfl
      rw [hcomp]
      cases t with
      | zero =>
          rw [filter_pairsFrom_lt rest (s + 1) (s + 0) (by omega)]
          have htrue : (s == s + 0) = true := by simp
          simp [htrue, List.filter_true]
      | succ t' =>
          have hfalse : (s == s + (t' + 1)) = false := by simp
          have h1 : s + (t' + 1) = (s + 1) + t' := by omega
          rw [hfalse, h1, ih (s + 1) t' (by simpa using ht)]
          simp

/-- C1: `buildSplatIndexMaps` appends, for each scene `s` in order and each
    local index `i` in `[0, maxSplatCount s)`, the pair `(s, i)` at the next
    global slot; for every scene `s` the number of global indices mapped to
    `s` equals that scene's max splat count and the local indices for `s`
    form exactly the range `[0, maxSplatCount s)`; with max counts 500 and
    300, global index 650 maps to scene index 1, local index 150. -/
theorem C1_buildSplatIndexMaps_correct (bufs : List ℕ) (s : ℕ) (hs : s < bufs.length) :
    (∀ i, i < bufs.getD s 0 →
        (buildSplatIndexMaps bufs).1.getD ((bufs.take s).sum + i) 0 = i ∧
        (buildSplatIndexMaps bufs).2.getD ((bufs.take s).sum + i) 0 = s) ∧
    ((buildSplatIndexMaps bufs).2.count s = bufs.getD s 0) ∧
    ((((buildSplatIndexMaps bufs).2.zip (buildSplatIndexMaps bufs).1).filter
        (fun p => p.1 == s)).map Prod.snd = List.range (bufs.getD s 0)) ∧
    (buildSplatIndexMaps [500, 300]).2.getD 650 0 = 1 ∧
    (buildSplatIndexMaps [500, 300]).1.getD 650 0 = 150 := by
  rw [buildSplatIndexMaps_eq]
  refine ⟨?_, ?_, ?_, ?_, ?_⟩
  · intro i hi
    refine ⟨getD_localMapOf bufs s i hs hi, ?_⟩
    simpa using getD_sceneMapOf bufs 0 s i hs hi
  · simpa using count_sceneMapOf bufs 0 s hs
  · simpa [pairsFrom] using filter_map_snd_pairsFrom bufs 0 s hs
  · rw [buildSplatIndexMaps_eq]
    have h650 : (650 : ℕ) = (([500, 300] : List ℕ).take 1).sum + 150 := by decide
    rw [h650]
    simpa using getD_sceneMapOf [500, 300] 0 1 150 (by decide) (by decide)
  · rw [buildSplatIndexMaps_eq]
    have h650 : (650 : ℕ) = (([500, 300] : List ℕ).take 1).sum + 150 := by decide
    rw [h650]
    simpa using getD_localMapOf [500, 300] 1 150 (by decide) (by decide)

/-- Witness for C1 at the concrete two-scene list of the scenario. -/
theorem C1_buildSplatIndexMaps_correct_witness :
    (buildSplatIndexMaps [500, 300]).2.count 1 = 300 ∧
    (buildSplatIndexMaps [500, 300]).2.getD 650 0 = 1 ∧
    (buildSplatIndexMaps [500, 300]).1.getD 650 0 = 150 :=
  ⟨by simpa using (C1_buildSplatIndexMaps_correct [500, 300] 1 (by decide)).2.1,
   (C1_buildSplatIndexMaps_correct [500, 300] 1 (by decide)).2.2.2.1,
   (C1_buildSplatIndexMaps_correct [500, 300] 1 (by decide)).2.2.2.2⟩

/-! ### Data texture sizing, `computeDataTextureSize` inside
`SplatMesh.uploadSplatDataToTextures` (lines 685-689)

`const texSize = new THREE.Vector2(4096, 1024);
 while (texSize.x * texSize.y * elementsPerTexel < maxSplatCount * elementsPerSplat) texSize.y *= 2;`

The loop is embedded with the product `maxSplatCount * elementsPerSplat` as
`target`.  The decreasing measure needs `0 < y` and `0 < elementsPerTexel`;
both hold at every call site of the source (`y` starts at `1024`,
`elementsPerTexel` is `2`, `4` or `1`), so the extra guard never changes
the computed value there. -/

def texHeightLoop (elementsPerTexel target : ℕ) (y : ℕ) : ℕ :=
  if h : 4096 * y * elementsPerTexel < target ∧ 0 < y ∧ 0 < elementsPerTexel then
    texHeightLoop elementsPerTexel target (2 * y)
  else y
termination_by target - 4096 * y * elementsPerTexel
decreasing_by
  have hpos : 0 < 4096 * y * elementsPerTexel := by
    have := h.2.1
    have := h.2.2
    positivity
  have hdouble : 4096 * (2 * y) * elementsPerTexel = 2 * (4096 * y * elementsPerTexel) := by ring
  omega

/-- Embedding of `computeDataTextureSize(elementsPerTexel, elementsPerSplat)`:
    width fixed at 4096, initial height 1024, height doubled while
    `width * height * elementsPerTexel < maxSplatCount * elementsPerSplat`. -/
def computeDataTextureSize (elementsPerTexel elementsPerSplat maxSplatCount : ℕ) : ℕ × ℕ :=
  (4096, texHeightLoop elementsPerTexel (maxSplatCount * elementsPerSplat) 1024)

lemma texHeightLoop_ge (ept target : ℕ) (hept : 0 < ept) :
    ∀ y, 0 < y → target ≤ 4096 * texHeightLoop ept target y * ept := by
  suffices H : ∀ n y, 0 < y → target - 4096 * y * ept ≤ n →
      target ≤ 4096 * texHeightLoop ept target y * ept by
    exact fun y hy => H (target - 4096 * y * ept) y hy le_rfl
  intro n
  induction n with
  | zero =>
      intro y hy hm
      rw [texHeightLoop]
      have hc : ¬ (4096 * y * ept < target ∧ 0 < y ∧ 0 < ept) := by
        intro hcon; omega
      rw [dif_neg hc]
      omega
  | succ n ih =>
      intro y hy hm
      rw [texHeightLoop]
      by_cases hc : 4096 * y * ept < target ∧ 0 < y ∧ 0 < ept
      · rw [dif_pos hc]
        apply ih (2 * y) (by omega)
        have hpos : 0 < 4096 * y * ept := by positivity
        have hdouble : 4096 * (2 * y) * ept = 2 * (4096 * y * ept) := by ring
        omega
      · rw [dif_neg hc]
        have hnotlt : ¬ (4096 * y * ept < target) := fun hA => hc ⟨hA, hy, hept⟩
        omega

lemma texHeightLoop_pow (ept target : ℕ) :
    ∀ y, ∃ k, texHeightLoop ept target y = y * 2 ^ k := by
  suffices H : ∀ n y, target - 4096 * y * ept ≤ n →
      ∃ k, texHeightLoop ept target y = y * 2 ^ k by
    exact fun y => H (target - 4096 * y * ept) y le_rfl
  intro n
  induction n with
  | zero =>
      intro y hm
      rw [texHeightLoop]
      have hc : ¬ (4096 * y * ept < target ∧ 0 < y ∧ 0 < ept) := by
        intro hcon
        have hpos : 0 < 4096 * y * ept := by
          have := hcon.2.1; have := hcon.2.2; positivity
        omega
      rw [dif_neg hc]
      exact ⟨0, by ring⟩
  | succ n ih =>
      intro y hm
      rw [texHeightLoop]
      by_cases hc : 4096 * y * ept < target ∧ 0 < y ∧ 0 < ept
      · rw [dif_pos hc]
        have hpos : 0 < 4096 * y * ept := by
          have := hc.2.1; have := hc.2.2; positivity
        have hdouble : 4096 * (2 * y) * ept = 2 * (4096 * y * ept) := by ring
        obtain ⟨k, hk⟩ := ih (2 * y) (by omega)
        exact ⟨k + 1, by rw [hk]; ring⟩
      · rw [dif_neg hc]
        exact ⟨0, by ring⟩

/-- C9: the data-texture size has fixed width 4096 and a height obtained by
    doubling the initial height 1024 until
    `width * height * elementsPerTexel ≥ maxSplatCount * elementsPerSplat`;
    the loop terminates (the function is total) and the returned size
    satisfies that inequality. -/
theorem C9_computeDataTextureSize_correct (ept eps msc : ℕ) (hept : 0 < ept) :
    (computeDataTextureSize ept eps msc).1 = 4096 ∧
    msc * eps ≤ (computeDataTextureSize ept eps msc).1 * (computeDataTextureSize ept eps msc).2 * ept ∧
    ∃ k, (computeDataTextureSize ept eps msc).2 = 1024 * 2 ^ k := by
  refine ⟨rfl, ?_, ?_⟩
  · exact texHeightLoop_ge ept (msc * eps) hept 1024 (by norm_num)
  · exact texHeightLoop_pow ept (msc * eps) 1024

/-- Witness for C9 at the covariance call site (`elementsPerTexel = 2`,
    `elementsPerSplat = 6`) with a million splats. -/
theorem C9_computeDataTextureSize_correct_witness :
    (computeDataTextureSize 2 6 1000000).1 = 4096 ∧
    1000000 * 6 ≤ (computeDataTextureSize 2 6 1000000).1 * (computeDataTextureSize 2 6 1000000).2 * 2 :=
  ⟨(C9_computeDataTextureSize_correct 2 6 1000000 (by norm_num)).1,
   (C9_computeDataTextureSize_correct 2 6 1000000 (by norm_num)).2.1⟩

/-! ### Screen-space projector, vertex shader of `SplatMesh.buildMaterial`

The clip test (source lines 148-152):

`float clip = 1.2 * clipCenter.w;
 if (clipCenter.z < -clip || clipCenter.x < -clip || clipCenter.x > clip ||
     clipCenter.y < -clip || clipCenter.y > clip) { gl_Position = vec4(0.0, 0.0, 2.0, 1.0); return; }`

Shader float comparisons are modelled exactly over `ℚ`. -/

structure ClipVec where
  x : ℚ
  y : ℚ
  z : ℚ
  w : ℚ

/-- The rejection condition of the vertex shader: when it holds the splat is
    emitted at the degenerate position `vec4(0, 0, 2, 1)` and not rasterized. -/
def clipRejected (clipCenter : ClipVec) : Prop :=
  clipCenter.z < -(1.2 * clipCenter.w) ∨
  clipCenter.x < -(1.2 * clipCenter.w) ∨ clipCenter.x > 1.2 * clipCenter.w ∨
  clipCenter.y < -(1.2 * clipCenter.w) ∨ clipCenter.y > 1.2 * clipCenter.w

instance (c : ClipVec) : Decidable (clipRejected c) := by
  unfold clipRejected; infer_instance

/-- C5 counterexample: a clip-space center whose `z` coordinate lies outside
    the `1.2 × w` margin on the positive side is NOT rejected — the shader
    tests `z` only against `-clip`, never against `+clip`. -/
theorem C5_counterexample_z_positive_not_rejected :
    ¬ clipRejected ⟨0, 0, 2, 1⟩ ∧ (2 : ℚ) > 1.2 * 1 := by
  constructor
  · unfold clipRejected
    push_neg
    norm_num
  · norm_num

/-- C5 amended: a splat is rejected exactly when `x` or `y` lies outside the
    `1.2 × w` margin on either side, or `z` lies below `-1.2 × w`; `z` above
    `+1.2 × w` alone never causes rejection, and a splat with all three
    coordinates within the margin is not rejected. -/
theorem C5_clip_rejection_amended (c : ClipVec) :
    (clipRejected c ↔
      (|c.x| > 1.2 * c.w ∨ |c.y| > 1.2 * c.w ∨ c.z < -(1.2 * c.w))) ∧
    ((|c.x| ≤ 1.2 * c.w ∧ |c.y| ≤ 1.2 * c.w ∧ |c.z| ≤ 1.2 * c.w) →
      ¬ clipRejected c) := by
  have habs : ∀ a b : ℚ, |a| > b ↔ (a < -b ∨ a > b) := by
    intro a b
    rw [gt_iff_lt, lt_abs]
    constructor
    · rintro (h | h)
      · exact Or.inr h
      · exact Or.inl (by linarith)
    · rintro (h | h)
      · exact Or.inr (by linarith)
      · exact Or.inl h
  constructor
  · rw [habs, habs]
    unfold clipRejected
    tauto
  · rintro ⟨hx, hy, hz⟩
    have hax := abs_le.mp hx
    have hay := abs_le.mp hy
    have haz := abs_le.mp hz
    unfold clipRejected
    push_neg
    refine ⟨by linarith, by linarith, by linarith, by linarith, by linarith⟩

/-- Witness for the amended C5 at a concrete in-margin clip center. -/
theorem C5_clip_rejection_amended_witness : ¬ clipRejected ⟨1, -1, 1, 1⟩ :=
  (C5_clip_rejection_amended ⟨1, -1, 1, 1⟩).2 (by norm_num)

/-! ### Vertex shader covariance projection and 2x2 eigen solve
(source lines 157-232)

GLSL shader arithmetic is idealized over `ℝ`.  A GLSL matrix access
`m[c][r]` addresses column `c`, row `r`; with matrices embedded as
mathematical `Matrix (Fin 3) (Fin 3) ℝ` it is the entry at row `r`,
column `c`, and the GLSL product and `transpose` are the mathematical
ones. -/

open Matrix

noncomputable section

/-- GLSL `step(edge, x)`: 0 when `x < edge`, else 1. -/
def glStep (edge x : ℝ) : ℝ := if x < edge then 0 else 1

/-- `const float sqrt8 = sqrt(8.0);` (source line 108). -/
noncomputable def sqrt8 : ℝ := Real.sqrt 8

/-- `float D = a * d - b * b;` (source line 216). -/
def covDet (a b d : ℝ) : ℝ := a * d - b * b

/-- `float trace = a + d; float traceOver2 = 0.5 * trace;` (lines 217-218). -/
def traceOver2 (a d : ℝ) : ℝ := 0.5 * (a + d)

/-- `float term2 = sqrt(max(0.1f, traceOver2 * traceOver2 - D));` (line 219). -/
noncomputable def term2 (a b d : ℝ) : ℝ :=
  Real.sqrt (max 0.1 (traceOver2 a d * traceOver2 a d - covDet a b d))

/-- `float eigenValue1 = traceOver2 + term2;` (line 220). -/
noncomputable def eigenValue1 (a b d : ℝ) : ℝ := traceOver2 a d + term2 a b d

/-- `float eigenValue2 = traceOver2 - term2;` (line 221). -/
noncomputable def eigenValue2 (a b d : ℝ) : ℝ := traceOver2 a d - term2 a b d

/-- `float transparentAdjust = step(1.0 / 255.0, vColor.a);` (line 223). -/
def transparentAdjust (alpha : ℝ) : ℝ := glStep (1 / 255) alpha

/-- `eigenValue2 = eigenValue2 * transparentAdjust;` (line 224). -/
noncomputable def adjustedEigenValue2 (a b d alpha : ℝ) : ℝ :=
  eigenValue2 a b d * transparentAdjust alpha

/-- GLSL `normalize` on a 2-vector, with the total-division convention of `ℝ`. -/
noncomputable def glNormalize2 (v : ℝ × ℝ) : ℝ × ℝ :=
  (v.1 / Real.sqrt (v.1 * v.1 + v.2 * v.2), v.2 / Real.sqrt (v.1 * v.1 + v.2 * v.2))

/-- `vec2 eigenVector1 = normalize(vec2(b, eigenValue1 - a));` (line 226). -/
noncomputable def eigenVector1 (a b d : ℝ) : ℝ × ℝ :=
  glNormalize2 (b, eigenValue1 a b d - a)

/-- `vec2 eigenVector2 = vec2(eigenVector1.y, -eigenVector1.x);` (line 228). -/
noncomputable def eigenVector2 (a b d : ℝ) : ℝ × ℝ :=
  ((eigenVector1 a b d).2, -(eigenVector1 a b d).1)

/-- `vec2 basisVector2 = eigenVector2 * sqrt8 * sqrt(eigenValue2);` (line 232),
    with `eigenValue2` already multiplied by `transparentAdjust`. -/
noncomputable def basisVector2 (a b d alpha : ℝ) : ℝ × ℝ :=
  ((eigenVector2 a b d).1 * sqrt8 * Real.sqrt (adjustedEigenValue2 a b d alpha),
   (eigenVector2 a b d).2 * sqrt8 * Real.sqrt (adjustedEigenValue2 a b d alpha))

/-- C6 counterexample: with color alpha exactly `1/255` (which is ≤ `1/255`),
    `step(1/255, alpha)` returns 1, so the second eigenvalue is NOT forced to
    zero (here it stays 1) and the second basis vector's extent is 2, not 0. -/
theorem C6_counterexample_alpha_at_threshold :
    (1 / 255 : ℝ) ≤ 1 / 255 ∧
    adjustedEigenValue2 2 1 2 (1 / 255) = 1 ∧ (1 : ℝ) ≠ 0 ∧
    (basisVector2 2 1 2 (1 / 255)).1 = 2 ∧ (2 : ℝ) ≠ 0 := by
  have hmax : max (0.1 : ℝ) (traceOver2 2 2 * traceOver2 2 2 - covDet 2 1 2) = 1 := by
    unfold traceOver2 covDet
    norm_num
  have hterm : term2 2 1 2 = 1 := by
    unfold term2
    rw [hmax, Real.sqrt_one]
  have hev2 : eigenValue2 2 1 2 = 1 := by
    unfold eigenValue2
    rw [hterm]
    unfold traceOver2
    norm_num
  have hstep : transparentAdjust (1 / 255) = 1 := by
    unfold transparentAdjust glStep
    rw [if_neg (lt_irrefl _)]
  have hadj : adjustedEigenValue2 2 1 2 (1 / 255) = 1 := by
    unfold adjustedEigenValue2
    rw [hev2, hstep, mul_one]
  have hev1 : eigenValue1 2 1 2 = 3 := by
    unfold eigenValue1
    rw [hterm]
    unfold traceOver2
    norm_num
  have hvec1 : eigenVector1 2 1 2 = (1 / Real.sqrt 2, 1 / Real.sqrt 2) := by
    unfold eigenVector1 glNormalize2
    rw [hev1]
    norm_num
  have h8 : Real.sqrt 8 = 2 * Real.sqrt 2 := by
    rw [show (8 : ℝ) = 2 ^ 2 * 2 by norm_num, Real.sqrt_mul (by positivity),
        Real.sqrt_sq (by norm_num)]
  have h2ne : Real.sqrt 2 ≠ 0 := by
    have : (0 : ℝ) < Real.sqrt 2 := Real.sqrt_pos.mpr (by norm_num)
    linarith
  refine ⟨le_refl _, hadj, one_ne_zero, ?_, two_ne_zero⟩
  unfold basisVector2 eigenVector2
  rw [hadj, Real.sqrt_one, hvec1, sqrt8, h8]
  field_simp

/-- C6 amended: only a color alpha STRICTLY below `1/255` forces the second
    eigenvalue to zero (and with it the second basis vector); at alpha equal
    to `1/255` the eigenvalue is left unchanged. -/
theorem C6_opacity_floor_amended (a b d alpha : ℝ) (h : alpha < 1 / 255) :
    adjustedEigenValue2 a b d alpha = 0 ∧ basisVector2 a b d alpha = (0, 0) := by
  have hstep : transparentAdjust alpha = 0 := by
    unfold transparentAdjust glStep
    rw [if_pos h]
  have hadj : adjustedEigenValue2 a b d alpha = 0 := by
    unfold adjustedEigenValue2
    rw [hstep, mul_zero]
  refine ⟨hadj, ?_⟩
  unfold basisVector2
  rw [hadj, Real.sqrt_zero, mul_zero, mul_zero]

/-- Witness for the amended C6 at a fully transparent splat. -/
theorem C6_opacity_floor_amended_witness :
    adjustedEigenValue2 2 1 2 0 = 0 ∧ basisVector2 2 1 2 0 = (0, 0) :=
  C6_opacity_floor_amended 2 1 2 0 (by norm_num)

/-- `mat3 Vrk` built from the six sampled covariance elements (lines 165-169);
    the GLSL constructor is column-major, but this matrix is symmetric so the
    row-major reading is the same matrix. -/
def Vrk (m11 m12 m13 m22 m23 m33 : ℝ) : Matrix (Fin 3) (Fin 3) ℝ :=
  !![m11, m12, m13; m12, m22, m23; m13, m23, m33]

/-- `mat3 J` (lines 175-180): the GLSL column-major constructor
    `mat3(fx/z, 0, -(fx*x)*s, 0, fy/z, -(fy*y)*s, 0, 0, 0)` with
    `s = 1/(z*z)`, written here row-major as a mathematical matrix. -/
noncomputable def Jmat (fx fy vx vy vz : ℝ) : Matrix (Fin 3) (Fin 3) ℝ :=
  !![fx / vz, 0, 0;
     0, fy / vz, 0;
     -(fx * vx) * (1 / (vz * vz)), -(fy * vy) * (1 / (vz * vz)), 0]

/-- `mat3 W = transpose(mat3(transformModelViewMatrix));` (line 183). -/
def Wmat (M : Matrix (Fin 3) (Fin 3) ℝ) : Matrix (Fin 3) (Fin 3) ℝ := Mᵀ

/-- `mat3 T = W * J;` (line 184). -/
def Tmat (M J : Matrix (Fin 3) (Fin 3) ℝ) : Matrix (Fin 3) (Fin 3) ℝ := Wmat M * J

/-- `mat3 cov2Dm = transpose(T) * Vrk * T;` (line 187), before dilation. -/
def cov2DmRaw (T V : Matrix (Fin 3) (Fin 3) ℝ) : Matrix (Fin 3) (Fin 3) ℝ :=
  Tᵀ * V * T

/-- `a` of `cov2Dv`: `cov2Dm[0][0]` after `cov2Dm[0][0] += 0.3` (lines 189, 196, 213). -/
def cov2D_a (T V : Matrix (Fin 3) (Fin 3) ℝ) : ℝ := cov2DmRaw T V 0 0 + 0.3

/-- `b` of `cov2Dv`: `cov2Dm[0][1]`, i.e. column 0, row 1 (lines 196, 215). -/
def cov2D_b (T V : Matrix (Fin 3) (Fin 3) ℝ) : ℝ := cov2DmRaw T V 1 0

/-- `d` of `cov2Dv`: `cov2Dm[1][1]` after `cov2Dm[1][1] += 0.3` (lines 190, 196, 214). -/
def cov2D_d (T V : Matrix (Fin 3) (Fin 3) ℝ) : ℝ := cov2DmRaw T V 1 1 + 0.3

lemma Vrk_symm (m11 m12 m13 m22 m23 m33 : ℝ) :
    (Vrk m11 m12 m13 m22 m23 m33)ᵀ = Vrk m11 m12 m13 m22 m23 m33 := by
  unfold Vrk
  ext i j
  fin_cases i <;> fin_cases j <;> rfl

lemma cov2DmRaw_symm (T V : Matrix (Fin 3) (Fin 3) ℝ) (hV : Vᵀ = V) :
    (cov2DmRaw T V)ᵀ = cov2DmRaw T V := by
  unfold cov2DmRaw
  rw [Matrix.transpose_mul, Matrix.transpose_mul, Matrix.transpose_transpose, hV,
      Matrix.mul_assoc]

/-- C7: the projector computes `cov2D = transpose(T) · Vrk · T` with
    `T = transpose(modelView) · J`, adds 0.3 to both diagonal terms, takes
    `(a, b, d) = (cov2D00, cov2D01, cov2D11)` (the matrix is symmetric, so
    the stored entry `cov2Dm[0][1]` IS `cov2D01`), computes the eigenvalues
    as `trace/2 ± sqrt(max(ε, (trace/2)² − det))` with the positive floor
    `ε = 0.1` keeping the radicand from being negative, takes eigenvector 1
    as `normalize(b, eigenValue1 − a)` and eigenvector 2 as its
    perpendicular. -/
theorem C7_covariance_projection_eigen_solve (M : Matrix (Fin 3) (Fin 3) ℝ)
    (m11 m12 m13 m22 m23 m33 fx fy vx vy vz : ℝ) :
    Tmat M (Jmat fx fy vx vy vz) = Mᵀ * Jmat fx fy vx vy vz ∧
    cov2DmRaw (Tmat M (Jmat fx fy vx vy vz)) (Vrk m11 m12 m13 m22 m23 m33)
      = (Tmat M (Jmat fx fy vx vy vz))ᵀ * Vrk m11 m12 m13 m22 m23 m33
          * Tmat M (Jmat fx fy vx vy vz) ∧
    cov2D_a (Tmat M (Jmat fx fy vx vy vz)) (Vrk m11 m12 m13 m22 m23 m33)
      = cov2DmRaw (Tmat M (Jmat fx fy vx vy vz)) (Vrk m11 m12 m13 m22 m23 m33) 0 0 + 0.3 ∧
    cov2D_d (Tmat M (Jmat fx fy vx vy vz)) (Vrk m11 m12 m13 m22 m23 m33)
      = cov2DmRaw (Tmat M (Jmat fx fy vx vy vz)) (Vrk m11 m12 m13 m22 m23 m33) 1 1 + 0.3 ∧
    cov2D_b (Tmat M (Jmat fx fy vx vy vz)) (Vrk m11 m12 m13 m22 m23 m33)
      = cov2DmRaw (Tmat M (Jmat fx fy vx vy vz)) (Vrk m11 m12 m13 m22 m23 m33) 0 1 ∧
    (∀ a b d : ℝ,
      eigenValue1 a b d
        = (a + d) / 2 + Real.sqrt (max 0.1 (((a + d) / 2) ^ 2 - (a * d - b * b))) ∧
      eigenValue2 a b d
        = (a + d) / 2 - Real.sqrt (max 0.1 (((a + d) / 2) ^ 2 - (a * d - b * b)))) ∧
    ((0 : ℝ) < 0.1 ∧
      ∀ a b d : ℝ, (0 : ℝ) ≤ max 0.1 (((a + d) / 2) ^ 2 - (a * d - b * b))) ∧
    (∀ a b d : ℝ,
      eigenVector1 a b d = glNormalize2 (b, eigenValue1 a b d - a) ∧
      (eigenVector1 a b d).1 * (eigenVector2 a b d).1
        + (eigenVector1 a b d).2 * (eigenVector2 a b d).2 = 0) := by
  have hsym := cov2DmRaw_symm (Tmat M (Jmat fx fy vx vy vz))
      (Vrk m11 m12 m13 m22 m23 m33) (Vrk_symm m11 m12 m13 m22 m23 m33)
  have harg : ∀ a d : ℝ, traceOver2 a d * traceOver2 a d = ((a + d) / 2) ^ 2 := by
    intro a d
    unfold traceOver2
    ring
  refine ⟨rfl, rfl, rfl, rfl, ?_, ?_, ?_, ?_⟩
  · unfold cov2D_b
    calc cov2DmRaw (Tmat M (Jmat fx fy vx vy vz)) (Vrk m11 m12 m13 m22 m23 m33) 1 0
        = (cov2DmRaw (Tmat M (Jmat fx fy vx vy vz)) (Vrk m11 m12 m13 m22 m23 m33))ᵀ 0 1 := rfl
      _ = cov2DmRaw (Tmat M (Jmat fx fy vx vy vz)) (Vrk m11 m12 m13 m22 m23 m33) 0 1 := by
          rw [hsym]
  · intro a b d
    constructor
    · unfold eigenValue1 term2 covDet
      rw [harg]
      unfold traceOver2
      ring_nf
    · unfold eigenValue2 term2 covDet
      rw [harg]
      unfold traceOver2
      ring_nf
  · refine ⟨by norm_num, ?_⟩
    intro a b d
    exact le_trans (by norm_num) (le_max_left _ _)
  · intro a b d
    refine ⟨rfl, ?_⟩
    unfold eigenVector2
    ring

end

/-! ### Attribute packer data model

JavaScript typed arrays are modelled as total functions from `ℕ`; the
element count relevant to each array is carried by the surrounding code.
Raw center and covariance elements are modelled over `ℚ` (exact JavaScript
arithmetic on the values the claims compare), color bytes over `ℕ`. -/

/-- Modelled from the spec: the point-cloud source buffer (`SplatBuffer`) is
    an external collaborator (its file is not part of the provided sources);
    it exposes splat count and max splat count queries and bulk extraction
    of centers, covariances, and colors.  Scene transforms are applied by
    the external fill functions, so the flat source streams below stand for
    the (already transformed) values those functions write: `covSrc` has 6
    elements per splat, `centerSrc` 3, `colorSrc` 4. -/
structure SplatBuffer where
  maxSplatCount : ℕ
  splatCount : ℕ
  covSrc : ℕ → ℚ
  centerSrc : ℕ → ℚ
  colorSrc : ℕ → ℕ

/-- Modelled from the spec: a bulk fill of the sub-range `[srcFrom, srcTo)`
    of a source stream with `stride` elements per splat into a destination
    array at splat offset `destOffset` ("bulk extraction ... optionally
    restricted to a sub-range" at a destination offset). -/
def fillSub {α : Type} (stride : ℕ) (src dst : ℕ → α) (srcFrom srcTo destOffset : ℕ) :
    ℕ → α :=
  fun idx =>
    if stride * destOffset ≤ idx ∧ idx < stride * (destOffset + (srcTo - srcFrom)) then
      src (idx - stride * destOffset + stride * srcFrom)
    else dst idx

/-- The mutable `splatDataTextures` bag of `SplatMesh` (lines 723-739): the
    raw `baseData` arrays plus, for each texture, its padded backing array
    and its size. -/
structure PackedData where
  baseCovariances : ℕ → ℚ
  baseCenters : ℕ → ℚ
  baseColors : ℕ → ℕ
  paddedCovariances : ℕ → ℚ
  paddedCenterColors : ℕ → ℕ
  paddedTransformIndexes : ℕ → ℕ
  covTexSize : ℕ × ℕ
  centersColsTexSize : ℕ × ℕ
  transformIndexesTexSize : ℕ × ℕ

/-- The fields of a `SplatMesh` instance used by the packing and
    distance-precomputation operations.  `sceneIndexMap` models
    `globalSplatIndexToSceneIndexMap`, `gpuCentersBuffer` the contents of
    the distances-computation centers buffer (integer-mode values coerced
    into `ℚ`), `renderer` whether `this.renderer` is set. -/
structure SplatMesh where
  scenes : List SplatBuffer
  dynamicMode : Bool
  integerBasedDistancesComputation : Bool
  renderer : Bool
  lastBuildSplatCount : List ℕ
  sceneIndexMap : ℕ → ℕ
  splatDataTextures : PackedData
  gpuCentersBuffer : ℕ → ℚ

/-- `SplatMesh.getSplatCount` (lines 865-875): total current splat count. -/
def getSplatCount (m : SplatMesh) : ℕ := (m.scenes.map SplatBuffer.splatCount).sum

/-- `SplatMesh.getMaxSplatCount` (lines 883-893): total max splat count. -/
def getMaxSplatCount (m : SplatMesh) : ℕ := (m.scenes.map SplatBuffer.maxSplatCount).sum

/-- The message of the configuration error thrown by
    `checkForMultiSceneUpdateCondition` (line 1572); the quotes around the
    parameter name are elided. -/
def multiSceneErrorMessage (functionName parameterName : String) : String :=
  functionName ++ "() -> " ++ parameterName ++
    " cannot be true if splat mesh has more than one scene."

/-- `SplatMesh.checkForMultiSceneUpdateCondition` (lines 1570-1574). -/
def checkForMultiSceneUpdateCondition (m : SplatMesh) (sinceLastBuild : Bool)
    (functionName parameterName : String) : Except String Unit :=
  if 1 < m.scenes.length ∧ sinceLastBuild = true then
    .error (multiSceneErrorMessage functionName parameterName)
  else .ok ()

/-- The per-scene loop of `SplatMesh.fillSplatDataArrays` (lines 1384-1408):
    for scene `i`, `srcFrom` is `lastBuildSplatCount[i]` when
    `sinceLastBuild` (else the whole range), the destination offset is 0
    when `forceDestFromZero`, `srcFrom` when `sinceLastBuild`, and the
    running `destfrom` otherwise; `srcTo` is always left undefined, i.e.
    the buffer's current splat count.  The three arrays are threaded as a
    triple (a caller passing `null` for an array simply ignores that
    component of the result). -/
def fillSplatDataArraysGo :
    List SplatBuffer → (ℕ → ℕ) → ℕ → ℕ → Bool → Bool →
    ((ℕ → ℚ) × (ℕ → ℚ) × (ℕ → ℕ)) → ((ℕ → ℚ) × (ℕ → ℚ) × (ℕ → ℕ))
  | [], _, _, _, _, _, arrs => arrs
  | sb :: rest, lastBuild, i, destfrom, since, force, (cov, cen, col) =>
      let srcFrom := if since then lastBuild i else 0
      let localDestFrom := if since then (if force then 0 else srcFrom) else destfrom
      fillSplatDataArraysGo rest lastBuild (i + 1) (destfrom + sb.splatCount) since force
        (fillSub 6 sb.covSrc cov srcFrom sb.splatCount localDestFrom,
         fillSub 3 sb.centerSrc cen srcFrom sb.splatCount localDestFrom,
         fillSub 4 sb.colorSrc col srcFrom sb.splatCount localDestFrom)

/-- `SplatMesh.fillSplatDataArrays` (lines 1380-1409); throws via
    `checkForMultiSceneUpdateCondition` before any write. -/
def fillSplatDataArrays (m : SplatMesh) (cov cen : ℕ → ℚ) (col : ℕ → ℕ)
    (sinceLastBuild forceDestFromZero : Bool) :
    Except String ((ℕ → ℚ) × (ℕ → ℚ) × (ℕ → ℕ)) :=
  match checkForMultiSceneUpdateCondition m sinceLastBuild "fillSplatDataArrays" "sinceLastBuild" with
  | .error e => .error e
  | .ok _ =>
      .ok (fillSplatDataArraysGo m.scenes (fun i => m.lastBuildSplatCount.getD i 0) 0 0
            sinceLastBuild forceDestFromZero (cov, cen, col))

/-- Modelled from the spec: `rgbaArrayToInteger` of `Util.js` (not among the
    provided sources) packs 4 color bytes into "one packed RGBA word". -/
def rgbaArrayToInteger (colors : ℕ → ℕ) (base : ℕ) : ℕ :=
  colors base + 2 ^ 8 * colors (base + 1) + 2 ^ 16 * colors (base + 2) +
    2 ^ 24 * colors (base + 3)

section PackedModel

/- `uintEncodedFloat` of `Util.js` (not among the provided sources) is
modelled from the spec as an arbitrary encoding of a center component into
its 32-bit IEEE-754 bit pattern ("encodes centers as 32-bit patterns
representing their IEEE-754 bit layout"); `storeCov` models the numeric
conversion applied when a covariance value is stored into the padded typed
array (`Float32Array` or `Uint16Array`, line 702).  All results below hold
for every choice of these two functions. -/
variable (uintEncodedFloat : ℚ → ℕ) (storeCov : ℚ → ℚ)

/-- The word written at flat index `w` of the padded center/colors array by
    the loop body of `updateCenterColorsPaddedData` (lines 674-682): for
    splat `c = w / 4`, the packed color word at `4c` and the three encoded
    center components at `4c+1 .. 4c+3`. -/
def packedCenterColorWord (centers : ℕ → ℚ) (colors : ℕ → ℕ) (w : ℕ) : ℕ :=
  if w % 4 = 0 then rgbaArrayToInteger colors (w / 4 * 4)
  else uintEncodedFloat (centers (w / 4 * 3 + (w % 4 - 1)))

/-- `updateCenterColorsPaddedData(to, from, centers, colors, paddedCenterColors)`
    inside `uploadSplatDataToTextures` (lines 673-683): writes the words of
    the splats in `[to, from)`, leaving the rest of the array unchanged. -/
def updateCenterColorsPaddedData (toIdx fromIdx : ℕ) (centers : ℕ → ℚ) (colors : ℕ → ℕ)
    (paddedCenterColors : ℕ → ℕ) : ℕ → ℕ :=
  fun w =>
    if 4 * toIdx ≤ w ∧ w < 4 * fromIdx then
      packedCenterColorWord uintEncodedFloat centers colors w
    else paddedCenterColors w

/-- `SplatMesh.uploadSplatDataToTextures` (lines 662-811).  The full-rebuild
    branch allocates fresh base arrays, fills them, computes the texture
    sizes and rebuilds every padded array; the `sinceLastBuild` branch
    re-fills only `[lastBuildSplatCount, splatCount)` of the base arrays in
    place and copies just that range into the existing padded arrays (the
    scalar uses of `this.lastBuildSplatCount` read the single element of
    the per-scene array, which is how JavaScript coerces it on the only
    reachable path, a single-scene mesh).  The GPU texture upload itself
    (`texSubImage2D`) carries no data beyond the padded arrays and is not
    modelled. -/
def uploadSplatDataToTextures (m : SplatMesh) (sinceLastBuild : Bool) :
    SplatMesh × Except String Unit :=
  match checkForMultiSceneUpdateCondition m sinceLastBuild "uploadSplatDataToTextures" "sinceLastBuild" with
  | .error e => (m, .error e)
  | .ok _ =>
    let maxSplatCount := getMaxSplatCount m
    let splatCount := getSplatCount m
    if sinceLastBuild = false then
      match fillSplatDataArrays m (fun _ => 0) (fun _ => 0) (fun _ => 0) false false with
      | .error e => (m, .error e)
      | .ok (cov, cen, col) =>
          let covTexSize := computeDataTextureSize 2 6 maxSplatCount
          let centersColsTexSize := computeDataTextureSize 4 4 maxSplatCount
          let transformIndexesTexSize := computeDataTextureSize 1 4 maxSplatCount
          ({ m with splatDataTextures :=
              { baseCovariances := cov
                baseCenters := cen
                baseColors := col
                paddedCovariances := fun i =>
                  if i < maxSplatCount * 6 then storeCov (cov i) else 0
                paddedCenterColors :=
                  updateCenterColorsPaddedData uintEncodedFloat 0 splatCount cen col (fun _ => 0)
                paddedTransformIndexes :=
                  if m.dynamicMode then
                    fun c => if c < splatCount then m.sceneIndexMap c else 0
                  else fun _ => 0
                covTexSize := covTexSize
                centersColsTexSize := centersColsTexSize
                transformIndexesTexSize :=
                  if m.dynamicMode then transformIndexesTexSize else (0, 0) } },
           .ok ())
    else
      match fillSplatDataArrays m m.splatDataTextures.baseCovariances
          m.splatDataTextures.baseCenters m.splatDataTextures.baseColors true false with
      | .error e => (m, .error e)
      | .ok (cov, cen, col) =>
          let lastBuild := m.lastBuildSplatCount.getD 0 0
          ({ m with splatDataTextures :=
              { m.splatDataTextures with
                baseCovariances := cov
                baseCenters := cen
                baseColors := col
                paddedCovariances := fun i =>
                  if lastBuild * 6 ≤ i ∧ i < splatCount * 6 then storeCov (cov i)
                  else m.splatDataTextures.paddedCovariances i
                paddedCenterColors :=
                  updateCenterColorsPaddedData uintEncodedFloat lastBuild splatCount cen col
                    m.splatDataTextures.paddedCenterColors
                paddedTransformIndexes :=
                  if m.dynamicMode then
                    fun c => if lastBuild ≤ c ∧ c < splatCount then m.sceneIndexMap c
                             else m.splatDataTextures.paddedTransformIndexes c
                  else m.splatDataTextures.paddedTransformIndexes } },
           .ok ())

end PackedModel

/-- `SplatMesh.getIntegerCenters` (lines 1418-1436): fills a fresh float
    centers array (covariances and colors are passed as `null` in the
    source, so those components of the fill are discarded here), then
    rounds each component times 1000 to an integer, inserting 1000 as
    every fourth component when `padFour`. -/
def getIntegerCenters (m : SplatMesh) (padFour sinceLastBuild : Bool) :
    Except String (ℕ → ℤ) :=
  match checkForMultiSceneUpdateCondition m sinceLastBuild "getIntegerCenters" "sinceLastBuild" with
  | .error e => .error e
  | .ok _ =>
    let splatCount := getSplatCount m
    let fillCount := if sinceLastBuild then splatCount - m.lastBuildSplatCount.getD 0 0
                     else splatCount
    match fillSplatDataArrays m (fun _ => 0) (fun _ => 0) (fun _ => 0)
        sinceLastBuild sinceLastBuild with
    | .error e => .error e
    | .ok (_, floatCenters, _) =>
        let componentCount := if padFour then 4 else 3
        .ok (fun idx =>
          if idx < fillCount * componentCount then
            if idx % componentCount < 3 then
              round (floatCenters (idx / componentCount * 3 + idx % componentCount) * 1000)
            else 1000
          else 0)

/-- The message of the JavaScript `ReferenceError` raised by
    `getFloatCenters`; the quotes around the variable name are elided. -/
def floatCentersTDZMessage : String :=
  "ReferenceError: Cannot access floatCenters before initialization"

/-- `SplatMesh.getFloatCenters` (lines 1445-1462).  After the multi-scene
    check, the source computes `splatCount` and `fillCount` and then calls
    `this.fillSplatDataArrays(null, floatCenters, null, undefined,
    sinceLastBuild, sinceLastBuild)` — but `const floatCenters = new
    Float32Array(fillCount * 3);` is only declared on the NEXT line, so the
    argument is read inside the temporal dead zone of the `const` and every
    execution that reaches this point throws a `ReferenceError`; the
    remaining statements (the allocation and the optional 4-wide padding)
    are unreachable. -/
def getFloatCenters (m : SplatMesh) (padFour sinceLastBuild : Bool) :
    Except String (ℕ → ℚ) :=
  match checkForMultiSceneUpdateCondition m sinceLastBuild "getFloatCenters" "sinceLastBuild" with
  | .error e => .error e
  | .ok _ => .error floatCentersTDZMessage

/-- `SplatMesh.updateGPUCentersBufferForDistancesComputation` (lines
    1158-1188): after the multi-scene check and the renderer guard, obtains
    the source centers (integer or float variant), then either writes them
    at byte offset `lastBuildSplatCount * 16` (`bufferSubData`) or uploads
    a fresh max-sized buffer (`bufferData`).  Buffer bytes are modelled as
    4-byte elements; integer centers are coerced into the `ℚ`-valued
    buffer model. -/
def updateGPUCentersBufferForDistancesComputation (m : SplatMesh) (sinceLastBuild : Bool) :
    SplatMesh × Except String Unit :=
  match checkForMultiSceneUpdateCondition m sinceLastBuild
      "updateGPUCentersBufferForDistancesComputation" "sinceLastBuild" with
  | .error e => (m, .error e)
  | .ok _ =>
    if m.renderer = false then (m, .ok ()) else
    let subBufferOffset := if sinceLastBuild then m.lastBuildSplatCount.getD 0 0 * 16 else 0
    let srcCenters : Except String (ℕ → ℚ) :=
      if m.integerBasedDistancesComputation then
        match getIntegerCenters m true sinceLastBuild with
        | .error e => .error e
        | .ok f => .ok (fun i => ((f i : ℤ) : ℚ))
      else getFloatCenters m false sinceLastBuild
    match srcCenters with
    | .error e => (m, .error e)
    | .ok src =>
      let splatCount := getSplatCount m
      let fillCount := if sinceLastBuild then splatCount - m.lastBuildSplatCount.getD 0 0
                       else splatCount
      if sinceLastBuild then
        let buf : ℕ → ℚ := fun i =>
          if subBufferOffset / 4 ≤ i ∧ i < subBufferOffset / 4 + fillCount * 4 then
            src (i - subBufferOffset / 4)
          else m.gpuCentersBuffer i
        ({ m with gpuCentersBuffer := buf }, .ok ())
      else
        let buf : ℕ → ℚ := fun i => if i < fillCount * 4 then src i else 0
        ({ m with gpuCentersBuffer := buf }, .ok ())

/-- `SplatMesh.getIntegerMatrixArray` (lines 1561-1568): each of the 16
    matrix elements times 1000, rounded. -/
def getIntegerMatrixArray (matrixElements : Fin 16 → ℚ) : List ℤ :=
  List.ofFn fun i => round (matrixElements i * 1000)

/-- C2: on a mesh with more than one scene, each of the five incremental
    update operations invoked with `sinceLastBuild = true` returns the
    descriptive multi-scene configuration error of
    `checkForMultiSceneUpdateCondition`, and the state-mutating ones return
    the mesh unchanged (in particular the packed data textures and their
    backing arrays are untouched). -/
theorem C2_multi_scene_incremental_rejected (uintEncodedFloat : ℚ → ℕ) (storeCov : ℚ → ℚ)
    (m : SplatMesh) (h : 1 < m.scenes.length)
    (cov cen : ℕ → ℚ) (col : ℕ → ℕ) (force padFour : Bool) :
    uploadSplatDataToTextures uintEncodedFloat storeCov m true
      = (m, .error (multiSceneErrorMessage "uploadSplatDataToTextures" "sinceLastBuild")) ∧
    fillSplatDataArrays m cov cen col true force
      = .error (multiSceneErrorMessage "fillSplatDataArrays" "sinceLastBuild") ∧
    getIntegerCenters m padFour true
      = .error (multiSceneErrorMessage "getIntegerCenters" "sinceLastBuild") ∧
    getFloatCenters m padFour true
      = .error (multiSceneErrorMessage "getFloatCenters" "sinceLastBuild") ∧
    updateGPUCentersBufferForDistancesComputation m true
      = (m, .error (multiSceneErrorMessage
          "updateGPUCentersBufferForDistancesComputation" "sinceLastBuild")) := by
  have hcheck : ∀ fn pn, checkForMultiSceneUpdateCondition m true fn pn
      = .error (multiSceneErrorMessage fn pn) := by
    intro fn pn
    unfold checkForMultiSceneUpdateCondition
    rw [if_pos ⟨h, rfl⟩]
  refine ⟨?_, ?_, ?_, ?_, ?_⟩
  · unfold uploadSplatDataToTextures
    rw [hcheck]
  · unfold fillSplatDataArrays
    rw [hcheck]
  · unfold getIntegerCenters
    rw [hcheck]
  · unfold getFloatCenters
    rw [hcheck]
  · unfold updateGPUCentersBufferForDistancesComputation
    rw [hcheck]

/-- A two-scene mesh used as concrete witness input. -/
def twoSceneMesh : SplatMesh where
  scenes := [⟨4, 2, fun i => (i : ℚ), fun i => (i : ℚ), fun i => i % 256⟩,
             ⟨4, 2, fun i => (i : ℚ), fun i => (i : ℚ), fun i => i % 256⟩]
  dynamicMode := true
  integerBasedDistancesComputation := false
  renderer := true
  lastBuildSplatCount := [0, 0]
  sceneIndexMap := fun _ => 0
  splatDataTextures :=
    ⟨fun _ => 0, fun _ => 0, fun _ => 0, fun _ => 0, fun _ => 0, fun _ => 0,
     (0, 0), (0, 0), (0, 0)⟩
  gpuCentersBuffer := fun _ => 0

/-- Witness for C2 on the concrete two-scene mesh. -/
theorem C2_multi_scene_incremental_rejected_witness :
    uploadSplatDataToTextures (fun _ => 0) (fun q => q) twoSceneMesh true
      = (twoSceneMesh,
         .error (multiSceneErrorMessage "uploadSplatDataToTextures" "sinceLastBuild")) ∧
    updateGPUCentersBufferForDistancesComputation twoSceneMesh true
      = (twoSceneMesh, .error (multiSceneErrorMessage
          "updateGPUCentersBufferForDistancesComputation" "sinceLastBuild")) :=
  ⟨(C2_multi_scene_incremental_rejected (fun _ => 0) (fun q => q) twoSceneMesh (by decide)
      (fun _ => 0) (fun _ => 0) (fun _ => 0) false false).1,
   (C2_multi_scene_incremental_rejected (fun _ => 0) (fun q => q) twoSceneMesh (by decide)
      (fun _ => 0) (fun _ => 0) (fun _ => 0) false false).2.2.2.2⟩

/-- C4: every call to `getFloatCenters` returns an error — the multi-scene
    configuration error when that check fires, and otherwise the
    `ReferenceError` from reading `floatCenters` before its declaration —
    and consequently, in floating-point (non-integer) distance-computation
    mode, `updateGPUCentersBufferForDistancesComputation` never changes the
    mesh state, so the GPU centers buffer never receives center data. -/
theorem C4_getFloatCenters_always_throws (m : SplatMesh) (padFour sinceLastBuild : Bool) :
    (∃ e, getFloatCenters m padFour sinceLastBuild = .error e) ∧
    (¬ (1 < m.scenes.length ∧ sinceLastBuild = true) →
      getFloatCenters m padFour sinceLastBuild = .error floatCentersTDZMessage) ∧
    (m.integerBasedDistancesComputation = false →
      (updateGPUCentersBufferForDistancesComputation m sinceLastBuild).1 = m) := by
  refine ⟨?_, ?_, ?_⟩
  · unfold getFloatCenters checkForMultiSceneUpdateCondition
    by_cases hc : 1 < m.scenes.length ∧ sinceLastBuild = true
    · rw [if_pos hc]
      exact ⟨_, rfl⟩
    · rw [if_neg hc]
      exact ⟨_, rfl⟩
  · intro hc
    unfold getFloatCenters checkForMultiSceneUpdateCondition
    rw [if_neg hc]
  · intro hint
    unfold updateGPUCentersBufferForDistancesComputation checkForMultiSceneUpdateCondition
    by_cases hc : 1 < m.scenes.length ∧ sinceLastBuild = true
    · rw [if_pos hc]
    · rw [if_neg hc]
      by_cases hr : m.renderer = false
      · rw [if_pos hr]
      · rw [if_neg hr]
        rw [hint]
        simp only [Bool.false_eq_true, if_false]
        have hfloat : getFloatCenters m false sinceLastBuild = .error floatCentersTDZMessage := by
          unfold getFloatCenters checkForMultiSceneUpdateCondition
          rw [if_neg hc]
        rw [hfloat]

/-- A single-scene mesh used as concrete witness input: 2 splats set, max 4,
    centers `0, 1, 2, 3, 4, 5, ...` flat. -/
def oneSceneMesh : SplatMesh where
  scenes := [⟨4, 2, fun i => (i : ℚ), fun i => (i : ℚ), fun i => i % 256⟩]
  dynamicMode := false
  integerBasedDistancesComputation := false
  renderer := true
  lastBuildSplatCount := [0]
  sceneIndexMap := fun _ => 0
  splatDataTextures :=
    ⟨fun _ => 0, fun _ => 0, fun _ => 0, fun _ => 0, fun _ => 0, fun _ => 0,
     (0, 0), (0, 0), (0, 0)⟩
  gpuCentersBuffer := fun _ => 0

/-- Witness for C4 on the concrete single-scene mesh with a full update. -/
theorem C4_getFloatCenters_always_throws_witness :
    getFloatCenters oneSceneMesh false false = .error floatCentersTDZMessage ∧
    (updateGPUCentersBufferForDistancesComputation oneSceneMesh false).1 = oneSceneMesh :=
  ⟨(C4_getFloatCenters_always_throws oneSceneMesh false false).2.1 (by decide),
   (C4_getFloatCenters_always_throws oneSceneMesh false false).2.2 rfl⟩

/-- The float centers array produced by a full (`sinceLastBuild = false`)
    `fillSplatDataArrays` pass, as read by `getIntegerCenters`. -/
def floatCentersFull (m : SplatMesh) : ℕ → ℚ :=
  (fillSplatDataArraysGo m.scenes (fun i => m.lastBuildSplatCount.getD i 0) 0 0 false false
    (fun _ => 0, fun _ => 0, fun _ => 0)).2.1

/-- C8: in fixed-point mode, `getIntegerCenters` with 4-wide padding returns
    `round(1000 × component)` for each of the three center components of
    every splat and exactly 1000 as the fourth padding component, and
    `getIntegerMatrixArray` returns `round(1000 × element)` for each of the
    16 matrix elements. -/
lemma getIntegerCenters_full_ok (m : SplatMesh) :
    getIntegerCenters m true false = .ok (fun idx =>
      if idx < getSplatCount m * 4 then
        if idx % 4 < 3 then round (floatCentersFull m (idx / 4 * 3 + idx % 4) * 1000)
        else 1000
      else 0) := by
  unfold getIntegerCenters fillSplatDataArrays checkForMultiSceneUpdateCondition
    floatCentersFull
  simp

theorem C8_integer_centers_and_matrix (m : SplatMesh) (i t : ℕ)
    (hi : i < getSplatCount m) (ht : t < 3) (e : Fin 16 → ℚ) (j : Fin 16) :
    (∃ f, getIntegerCenters m true false = .ok f ∧
      f (i * 4 + t) = round (1000 * floatCentersFull m (i * 3 + t)) ∧
      f (i * 4 + 3) = 1000) ∧
    (getIntegerMatrixArray e).getD j.val 0 = round (1000 * e j) := by
  constructor
  · refine ⟨_, getIntegerCenters_full_ok m, ?_, ?_⟩
    · have hlt : i * 4 + t < getSplatCount m * 4 := by omega
      rw [if_pos hlt]
      have hmod : (i * 4 + t) % 4 = t := by omega
      have hdiv : (i * 4 + t) / 4 = i := by omega
      rw [hmod, hdiv, if_pos ht, mul_comm]
    · have hlt : i * 4 + 3 < getSplatCount m * 4 := by omega
      rw [if_pos hlt]
      have hmod : (i * 4 + 3) % 4 = 3 := by omega
      rw [hmod]
      norm_num
  · have hj : j.val < (getIntegerMatrixArray e).length := by
      simp [getIntegerMatrixArray, j.isLt]
    rw [List.getD_eq_getElem _ _ hj]
    simp only [getIntegerMatrixArray, List.getElem_ofFn]
    rw [mul_comm]

/-! ### C3: incremental append versus full rebuild -/

/-- A mesh whose scene list holds the single buffer `sb` with its current
    splat count set to `c`, and whose per-scene `lastBuildSplatCount` array
    holds `lastB` (the state `build()` leaves behind between builds). -/
def meshWithScene (m : SplatMesh) (sb : SplatBuffer) (c lastB : ℕ) : SplatMesh :=
  { m with scenes := [{ sb with splatCount := c }], lastBuildSplatCount := [lastB] }

/-- The base array produced by a full single-scene fill of `c` splats with
    `stride` elements per splat into a fresh zeroed array. -/
def fullBase {α : Type} [Zero α] (stride : ℕ) (src : ℕ → α) (c : ℕ) : ℕ → α :=
  fillSub stride src (fun _ => 0) 0 c 0

/-- The packed data after one full rebuild of `[0, c)`. -/
def fullPacked (uintEncodedFloat : ℚ → ℕ) (storeCov : ℚ → ℚ)
    (m : SplatMesh) (sb : SplatBuffer) (c : ℕ) : PackedData :=
  ((uploadSplatDataToTextures uintEncodedFloat storeCov (meshWithScene m sb c 0) false).1).splatDataTextures

/-- The packed data after a full rebuild of `[0, n₀)` followed by an
    incremental (`sinceLastBuild = true`) append of `[n₀, n)` on the grown
    buffer. -/
def incrementalPacked (uintEncodedFloat : ℚ → ℕ) (storeCov : ℚ → ℚ)
    (m : SplatMesh) (sb : SplatBuffer) (n₀ n : ℕ) : PackedData :=
  ((uploadSplatDataToTextures uintEncodedFloat storeCov
      (meshWithScene
        ((uploadSplatDataToTextures uintEncodedFloat storeCov (meshWithScene m sb n₀ 0) false).1)
        sb n n₀)
      true).1).splatDataTextures

lemma fullPacked_eq (uintEncodedFloat : ℚ → ℕ) (storeCov : ℚ → ℚ)
    (m : SplatMesh) (sb : SplatBuffer) (c : ℕ) :
    fullPacked uintEncodedFloat storeCov m sb c =
      { baseCovariances := fullBase 6 sb.covSrc c
        baseCenters := fullBase 3 sb.centerSrc c
        baseColors := fullBase 4 sb.colorSrc c
        paddedCovariances := fun i =>
          if i < sb.maxSplatCount * 6 then storeCov (fullBase 6 sb.covSrc c i) else 0
        paddedCenterColors := updateCenterColorsPaddedData uintEncodedFloat 0 c
          (fullBase 3 sb.centerSrc c) (fullBase 4 sb.colorSrc c) (fun _ => 0)
        paddedTransformIndexes :=
          if m.dynamicMode then (fun g => if g < c then m.sceneIndexMap g else 0)
          else fun _ => 0
        covTexSize := computeDataTextureSize 2 6 sb.maxSplatCount
        centersColsTexSize := computeDataTextureSize 4 4 sb.maxSplatCount
        transformIndexesTexSize :=
          if m.dynamicMode then computeDataTextureSize 1 4 sb.maxSplatCount
          else (0, 0) } := rfl

lemma incrementalPacked_eq (uintEncodedFloat : ℚ → ℕ) (storeCov : ℚ → ℚ)
    (m : SplatMesh) (sb : SplatBuffer) (n₀ n : ℕ) :
    incrementalPacked uintEncodedFloat storeCov m sb n₀ n =
      { baseCovariances := fillSub 6 sb.covSrc (fullBase 6 sb.covSrc n₀) n₀ n n₀
        baseCenters := fillSub 3 sb.centerSrc (fullBase 3 sb.centerSrc n₀) n₀ n n₀
        baseColors := fillSub 4 sb.colorSrc (fullBase 4 sb.colorSrc n₀) n₀ n n₀
        paddedCovariances := fun i =>
          if n₀ * 6 ≤ i ∧ i < n * 6 then
            storeCov (fillSub 6 sb.covSrc (fullBase 6 sb.covSrc n₀) n₀ n n₀ i)
          else if i < sb.maxSplatCount * 6 then storeCov (fullBase 6 sb.covSrc n₀ i) else 0
        paddedCenterColors := updateCenterColorsPaddedData uintEncodedFloat n₀ n
          (fillSub 3 sb.centerSrc (fullBase 3 sb.centerSrc n₀) n₀ n n₀)
          (fillSub 4 sb.colorSrc (fullBase 4 sb.colorSrc n₀) n₀ n n₀)
          (updateCenterColorsPaddedData uintEncodedFloat 0 n₀
            (fullBase 3 sb.centerSrc n₀) (fullBase 4 sb.colorSrc n₀) (fun _ => 0))
        paddedTransformIndexes :=
          if m.dynamicMode then
            (fun g => if n₀ ≤ g ∧ g < n then m.sceneIndexMap g
              else (if m.dynamicMode then (fun g2 => if g2 < n₀ then m.sceneIndexMap g2 else 0)
                    else fun _ => 0) g)
          else (if m.dynamicMode then (fun g2 => if g2 < n₀ then m.sceneIndexMap g2 else 0)
                else fun _ => 0)
        covTexSize := computeDataTextureSize 2 6 sb.maxSplatCount
        centersColsTexSize := computeDataTextureSize 4 4 sb.maxSplatCount
        transformIndexesTexSize :=
          if m.dynamicMode then computeDataTextureSize 1 4 sb.maxSplatCount
          else (0, 0) } := rfl

lemma fillSub_incr_full_agree {α : Type} [Zero α] (stride : ℕ) (src : ℕ → α)
    (n₀ n idx : ℕ) (h : n₀ ≤ n) :
    fillSub stride src (fullBase stride src n₀) n₀ n n₀ idx = fullBase stride src n idx := by
  have hn : n₀ + (n - n₀) = n := by omega
  have hmono : stride * n₀ ≤ stride * n := Nat.mul_le_mul_left _ h
  simp only [fullBase, fillSub, hn, Nat.zero_add, Nat.sub_zero, Nat.mul_zero,
             Nat.add_zero, Nat.zero_le, true_and]
  split_ifs <;> first | rfl | omega | (congr 1; omega)

lemma fullBase_agree {α : Type} [Zero α] (stride : ℕ) (src : ℕ → α)
    (c₁ c₂ idx : ℕ) (h : c₁ ≤ c₂) (hidx : idx < stride * c₁) :
    fullBase stride src c₁ idx = fullBase stride src c₂ idx := by
  have hmono : stride * c₁ ≤ stride * c₂ := Nat.mul_le_mul_left _ h
  simp only [fullBase, fillSub, Nat.zero_add, Nat.sub_zero, Nat.mul_zero,
             Nat.add_zero, Nat.zero_le, true_and]
  split_ifs <;> first | rfl | omega

lemma fullBase_zero_of_ge {α : Type} [Zero α] (stride : ℕ) (src : ℕ → α)
    (c idx : ℕ) (h : stride * c ≤ idx) : fullBase stride src c idx = 0 := by
  simp only [fullBase, fillSub, Nat.zero_add, Nat.sub_zero, Nat.mul_zero,
             Nat.add_zero, Nat.zero_le, true_and]
  rw [if_neg (by omega)]

lemma packedCenterColorWord_congr (uintEncodedFloat : ℚ → ℕ)
    (cen1 cen2 : ℕ → ℚ) (col1 col2 : ℕ → ℕ) (c w : ℕ) (hw : w < 4 * c)
    (hcen : ∀ x, x < 3 * c → cen1 x = cen2 x)
    (hcol : ∀ x, x < 4 * c → col1 x = col2 x) :
    packedCenterColorWord uintEncodedFloat cen1 col1 w
      = packedCenterColorWord uintEncodedFloat cen2 col2 w := by
  unfold packedCenterColorWord rgbaArrayToInteger
  by_cases h0 : w % 4 = 0
  · rw [if_pos h0, if_pos h0, hcol _ (by omega), hcol _ (by omega), hcol _ (by omega),
        hcol _ (by omega)]
  · rw [if_neg h0, if_neg h0, hcen _ (by omega)]

/-- C3: for a single-scene mesh, a full rebuild of splats `[0, n₀)` followed
    by an incremental append of `[n₀, n)` (`sinceLastBuild = true`) yields
    packed attribute arrays — padded covariances, packed center+color words,
    transform indexes, base arrays and texture sizes — identical element for
    element to one full rebuild packing `[0, n)`; in particular for
    `n₀ = 100`, `n = 150`. -/
theorem C3_incremental_append_matches_full_rebuild (uintEncodedFloat : ℚ → ℕ)
    (storeCov : ℚ → ℚ) (m : SplatMesh) (sb : SplatBuffer) (n₀ n : ℕ)
    (h1 : n₀ ≤ n) (h2 : n ≤ sb.maxSplatCount) :
    (∀ i, (incrementalPacked uintEncodedFloat storeCov m sb n₀ n).paddedCovariances i
        = (fullPacked uintEncodedFloat storeCov m sb n).paddedCovariances i) ∧
    (∀ w, (incrementalPacked uintEncodedFloat storeCov m sb n₀ n).paddedCenterColors w
        = (fullPacked uintEncodedFloat storeCov m sb n).paddedCenterColors w) ∧
    (∀ g, (incrementalPacked uintEncodedFloat storeCov m sb n₀ n).paddedTransformIndexes g
        = (fullPacked uintEncodedFloat storeCov m sb n).paddedTransformIndexes g) ∧
    (incrementalPacked uintEncodedFloat storeCov m sb n₀ n).covTexSize
      = (fullPacked uintEncodedFloat storeCov m sb n).covTexSize ∧
    (incrementalPacked uintEncodedFloat storeCov m sb n₀ n).centersColsTexSize
      = (fullPacked uintEncodedFloat storeCov m sb n).centersColsTexSize ∧
    (incrementalPacked uintEncodedFloat storeCov m sb n₀ n).transformIndexesTexSize
      = (fullPacked uintEncodedFloat storeCov m sb n).transformIndexesTexSize ∧
    (∀ i, (incrementalPacked uintEncodedFloat storeCov m sb n₀ n).baseCovariances i
        = (fullPacked uintEncodedFloat storeCov m sb n).baseCovariances i) ∧
    (∀ i, (incrementalPacked uintEncodedFloat storeCov m sb n₀ n).baseCenters i
        = (fullPacked uintEncodedFloat storeCov m sb n).baseCenters i) ∧
    (∀ i, (incrementalPacked uintEncodedFloat storeCov m sb n₀ n).baseColors i
        = (fullPacked uintEncodedFloat storeCov m sb n).baseColors i) := by
  rw [incrementalPacked_eq, fullPacked_eq]
  have hcovF : ∀ j, fillSub 6 sb.covSrc (fullBase 6 sb.covSrc n₀) n₀ n n₀ j
      = fullBase 6 sb.covSrc n j :=
    fun j => fillSub_incr_full_agree 6 sb.covSrc n₀ n j h1
  have hcenF : fillSub 3 sb.centerSrc (fullBase 3 sb.centerSrc n₀) n₀ n n₀
      = fullBase 3 sb.centerSrc n :=
    funext fun j => fillSub_incr_full_agree 3 sb.centerSrc n₀ n j h1
  have hcolF : fillSub 4 sb.colorSrc (fullBase 4 sb.colorSrc n₀) n₀ n n₀
      = fullBase 4 sb.colorSrc n :=
    funext fun j => fillSub_incr_full_agree 4 sb.colorSrc n₀ n j h1
  refine ⟨?_, ?_, ?_, rfl, rfl, rfl, ?_, ?_, ?_⟩
  · -- padded covariances
    intro i
    show (if n₀ * 6 ≤ i ∧ i < n * 6 then
            storeCov (fillSub 6 sb.covSrc (fullBase 6 sb.covSrc n₀) n₀ n n₀ i)
          else if i < sb.maxSplatCount * 6 then storeCov (fullBase 6 sb.covSrc n₀ i) else 0)
        = if i < sb.maxSplatCount * 6 then storeCov (fullBase 6 sb.covSrc n i) else 0
    rw [hcovF i]
    have hmono : n * 6 ≤ sb.maxSplatCount * 6 := Nat.mul_le_mul_right _ h2
    by_cases hA : n₀ * 6 ≤ i ∧ i < n * 6
    · rw [if_pos hA, if_pos (by omega)]
    · rw [if_neg hA]
      by_cases hB : i < sb.maxSplatCount * 6
      · rw [if_pos hB, if_pos hB]
        by_cases hi0 : i < n₀ * 6
        · congr 1
          exact fullBase_agree 6 sb.covSrc n₀ n i h1 (by omega)
        · rw [fullBase_zero_of_ge 6 sb.covSrc n₀ i (by omega),
              fullBase_zero_of_ge 6 sb.covSrc n i (by omega)]
      · rw [if_neg hB, if_neg hB]
  · -- padded center/color words
    intro w
    show updateCenterColorsPaddedData uintEncodedFloat n₀ n
          (fillSub 3 sb.centerSrc (fullBase 3 sb.centerSrc n₀) n₀ n n₀)
          (fillSub 4 sb.colorSrc (fullBase 4 sb.colorSrc n₀) n₀ n n₀)
          (updateCenterColorsPaddedData uintEncodedFloat 0 n₀
            (fullBase 3 sb.centerSrc n₀) (fullBase 4 sb.colorSrc n₀) (fun _ => 0)) w
        = updateCenterColorsPaddedData uintEncodedFloat 0 n
            (fullBase 3 sb.centerSrc n) (fullBase 4 sb.colorSrc n) (fun _ => 0) w
    rw [hcenF, hcolF]
    unfold updateCenterColorsPaddedData
    by_cases hA : 4 * n₀ ≤ w ∧ w < 4 * n
    · rw [if_pos hA, if_pos (by omega : 4 * 0 ≤ w ∧ w < 4 * n)]
    · rw [if_neg hA]
      by_cases hB : 4 * 0 ≤ w ∧ w < 4 * n₀
      · rw [if_pos hB, if_pos (by omega : 4 * 0 ≤ w ∧ w < 4 * n)]
        exact packedCenterColorWord_congr uintEncodedFloat _ _ _ _ n₀ w (by omega)
          (fun x hx => fullBase_agree 3 sb.centerSrc n₀ n x h1 (by omega))
          (fun x hx => fullBase_agree 4 sb.colorSrc n₀ n x h1 (by omega))
      · rw [if_neg hB, if_neg (by omega : ¬ (4 * 0 ≤ w ∧ w < 4 * n))]
  · -- padded transform indexes
    intro g
    cases hdyn : m.dynamicMode with
    | false => simp only [hdyn, Bool.false_eq_true, if_false]
    | true =>
        simp only [hdyn, if_true]
        by_cases hA : n₀ ≤ g ∧ g < n
        · rw [if_pos hA, if_pos (by omega : g < n)]
        · rw [if_neg hA]
          by_cases hB : g < n₀
          · rw [if_pos hB, if_pos (by omega : g < n)]
          · rw [if_neg hB, if_neg (by omega : ¬ g < n)]
  · exact hcovF
  · exact fun i => congrFun hcenF i
  · exact fun i => congrFun hcolF i

/-- Witness for C3 at the scenario counts 100 and 150 on a concrete buffer. -/
theorem C3_incremental_append_matches_full_rebuild_witness :
    (incrementalPacked (fun _ => 0) (fun q => q) oneSceneMesh
        ⟨200, 0, fun i => (i : ℚ), fun i => (i : ℚ), fun i => i % 256⟩ 100 150).paddedCovariances 777
      = (fullPacked (fun _ => 0) (fun q => q) oneSceneMesh
          ⟨200, 0, fun i => (i : ℚ), fun i => (i : ℚ), fun i => i % 256⟩ 150).paddedCovariances 777 ∧
    (incrementalPacked (fun _ => 0) (fun q => q) oneSceneMesh
        ⟨200, 0, fun i => (i : ℚ), fun i => (i : ℚ), fun i => i % 256⟩ 100 150).paddedCenterColors 333
      = (fullPacked (fun _ => 0) (fun q => q) oneSceneMesh
          ⟨200, 0, fun i => (i : ℚ), fun i => (i : ℚ), fun i => i % 256⟩ 150).paddedCenterColors 333 ∧
    (incrementalPacked (fun _ => 0) (fun q => q) oneSceneMesh
        ⟨200, 0, fun i => (i : ℚ), fun i => (i : ℚ), fun i => i % 256⟩ 100 150).covTexSize
      = (fullPacked (fun _ => 0) (fun q => q) oneSceneMesh
          ⟨200, 0, fun i => (i : ℚ), fun i => (i : ℚ), fun i => i % 256⟩ 150).covTexSize :=
  ⟨(C3_incremental_append_matches_full_rebuild (fun _ => 0) (fun q => q) oneSceneMesh
      ⟨200, 0, fun i => (i : ℚ), fun i => (i : ℚ), fun i => i % 256⟩ 100 150
      (by norm_num) (by norm_num)).1 777,
   (C3_incremental_append_matches_full_rebuild (fun _ => 0) (fun q => q) oneSceneMesh
      ⟨200, 0, fun i => (i : ℚ), fun i => (i : ℚ), fun i => i % 256⟩ 100 150
      (by norm_num) (by norm_num)).2.1 333,
   (C3_incremental_append_matches_full_rebuild (fun _ => 0) (fun q => q) oneSceneMesh
      ⟨200, 0, fun i => (i : ℚ), fun i => (i : ℚ), fun i => i % 256⟩ 100 150
      (by norm_num) (by norm_num)).2.2.2.1⟩

/-- Witness for C8 on the concrete single-scene mesh: splat 1, component 2,
    plus matrix entry 5 of the matrix with elements `k / 2`. -/
theorem C8_integer_centers_and_matrix_witness :
    (∃ f, getIntegerCenters oneSceneMesh true false = .ok f ∧
      f (1 * 4 + 2) = round (1000 * floatCentersFull oneSceneMesh (1 * 3 + 2)) ∧
      f (1 * 4 + 3) = 1000) ∧
    (getIntegerMatrixArray (fun k => ((k : ℕ) : ℚ) / 2)).getD ((5 : Fin 16) : ℕ) 0
      = round (1000 * ((((5 : Fin 16) : ℕ) : ℚ) / 2)) :=
  C8_integer_centers_and_matrix oneSceneMesh 1 2 (by decide) (by decide)
    (fun k => ((k : ℕ) : ℚ) / 2) 5

/-! ### Disposal of the distances-computation GPU resources
(source lines 901-940)

GL object handles are modelled as natural numbers held in `Option` fields
(`none` models a `null` reference, as initialized by the constructor,
lines 45-57); the GL context tracks which handles are still live.  Per the
WebGL specification, `deleteBuffer`/`deleteShader`/... silently ignore a
`null` argument. -/

/-- The `distancesTransformFeedback` field bag (constructor lines 45-57 plus
    the `vao` field assigned during setup, line 1067). -/
structure DistancesTransformFeedback where
  id : Option ℕ
  vertexShader : Option ℕ
  fragmentShader : Option ℕ
  program : Option ℕ
  centersBuffer : Option ℕ
  transformIndexesBuffer : Option ℕ
  outDistancesBuffer : Option ℕ
  vao : Option ℕ
  deriving DecidableEq

/-- The live GL objects of the rendering context. -/
structure GLState where
  buffers : List ℕ
  shaders : List ℕ
  programs : List ℕ
  vaos : List ℕ
  transformFeedbacks : List ℕ
  deriving DecidableEq

/-- `gl.deleteBuffer(h)`: removes a live handle, ignores `null`. -/
def deleteBuffer (gl : GLState) : Option ℕ → GLState
  | none => gl
  | some b => { gl with buffers := gl.buffers.erase b }

/-- `gl.deleteShader(h)`: removes a live handle, ignores `null`. -/
def deleteShader (gl : GLState) : Option ℕ → GLState
  | none => gl
  | some s => { gl with shaders := gl.shaders.erase s }

/-- `gl.deleteProgram(h)`: removes a live handle, ignores `null`. -/
def deleteProgram (gl : GLState) : Option ℕ → GLState
  | none => gl
  | some p => { gl with programs := gl.programs.erase p }

/-- `gl.deleteVertexArray(h)`: removes a live handle, ignores `null`. -/
def deleteVertexArray (gl : GLState) : Option ℕ → GLState
  | none => gl
  | some v => { gl with vaos := gl.vaos.erase v }

/-- `gl.deleteTransformFeedback(h)`: removes a live handle, ignores `null`. -/
def deleteTransformFeedback (gl : GLState) : Option ℕ → GLState
  | none => gl
  | some t => { gl with transformFeedbacks := gl.transformFeedbacks.erase t }

/-- The part of a `SplatMesh` instance the disposal functions touch. -/
structure MeshDisposal where
  renderer : Bool
  dtf : DistancesTransformFeedback
  gl : GLState
  deriving DecidableEq

/-- `SplatMesh.disposeDistancesComputationGPUBufferResources` (lines
    926-940).  Note the source order for the centers buffer: the field is
    set to `null` FIRST and `gl.deleteBuffer` is then called on the
    already-nulled field (`this.distancesTransformFeedback.centersBuffer = null;
    gl.deleteBuffer(this.distancesTransformFeedback.centersBuffer);`),
    whereas the out-distances buffer is deleted before its field is
    nulled; `transformIndexesBuffer` is not touched at all. -/
def disposeDistancesComputationGPUBufferResources (m : MeshDisposal) : MeshDisposal :=
  if m.renderer = false then m else
  let m1 :=
    if m.dtf.centersBuffer ≠ none then
      let dtf1 := { m.dtf with centersBuffer := none }
      { m with dtf := dtf1, gl := deleteBuffer m.gl dtf1.centersBuffer }
    else m
  if m1.dtf.outDistancesBuffer ≠ none then
    { m1 with gl := deleteBuffer m1.gl m1.dtf.outDistancesBuffer,
              dtf := { m1.dtf with outDistancesBuffer := none } }
  else m1

/-- `SplatMesh.disposeDistancesComputationGPUResources` (lines 901-924):
    deletes the vertex array, then the program and the two shader fields,
    then the buffer resources, then the transform feedback object, guarding
    each step on the stored reference and nulling the references it
    deletes. -/
def disposeDistancesComputationGPUResources (m : MeshDisposal) : MeshDisposal :=
  if m.renderer = false then m else
  let m1 :=
    if m.dtf.vao ≠ none then
      { m with gl := deleteVertexArray m.gl m.dtf.vao, dtf := { m.dtf with vao := none } }
    else m
  let m2 :=
    if m1.dtf.program ≠ none then
      { m1 with
        gl := deleteShader (deleteShader (deleteProgram m1.gl m1.dtf.program)
                m1.dtf.vertexShader) m1.dtf.fragmentShader,
        dtf := { m1.dtf with program := none, vertexShader := none, fragmentShader := none } }
    else m1
  let m3 := disposeDistancesComputationGPUBufferResources m2
  if m3.dtf.id ≠ none then
    { m3 with gl := deleteTransformFeedback m3.gl m3.dtf.id, dtf := { m3.dtf with id := none } }
  else m3

/-- A disposal state with every resource allocated and live: transform
    feedback 8, vertex shader 5, fragment shader 6, program 4, centers
    buffer 1, transform-indexes buffer 2, out-distances buffer 3, vao 7. -/
def fullMeshDisposal : MeshDisposal where
  renderer := true
  dtf := ⟨some 8, some 5, some 6, some 4, some 1, some 2, some 3, some 7⟩
  gl := ⟨[1, 2, 3], [5, 6], [4], [7], [8]⟩

/-- C10: evaluating the disposal functions on a fully allocated instance
    shows the divergence from the claim: the centers buffer reference is
    nulled BEFORE `gl.deleteBuffer` is called, so `deleteBuffer(null)` is a
    no-op and GL buffer 1 stays live, and the transform-indexes buffer is
    neither deleted (GL buffer 2 stays live) nor has its reference nulled —
    while the out-distances buffer, program, shaders, vao and transform
    feedback are correctly released and nulled, and a second disposal call
    on the already-disposed instance is a no-op (idempotent). -/
theorem C10_dispose_leaks_centers_and_transform_indexes_buffers :
    (disposeDistancesComputationGPUResources fullMeshDisposal).gl.buffers = [1, 2] ∧
    (1 ∈ (disposeDistancesComputationGPUResources fullMeshDisposal).gl.buffers) ∧
    (2 ∈ (disposeDistancesComputationGPUResources fullMeshDisposal).gl.buffers) ∧
    (disposeDistancesComputationGPUResources fullMeshDisposal).dtf.transformIndexesBuffer
      = some 2 ∧
    (disposeDistancesComputationGPUResources fullMeshDisposal).dtf.centersBuffer = none ∧
    (disposeDistancesComputationGPUResources fullMeshDisposal).dtf.outDistancesBuffer = none ∧
    (disposeDistancesComputationGPUResources fullMeshDisposal).gl.shaders = [] ∧
    (disposeDistancesComputationGPUResources fullMeshDisposal).gl.programs = [] ∧
    (disposeDistancesComputationGPUResources fullMeshDisposal).gl.vaos = [] ∧
    (disposeDistancesComputationGPUResources fullMeshDisposal).gl.transformFeedbacks = [] ∧
    disposeDistancesComputationGPUResources (disposeDistancesComputationGPUResources
      fullMeshDisposal) = disposeDistancesComputationGPUResources fullMeshDisposal := by
  decide

end GS3D
